import Mathlib

/-!
Verification development for the population simulation engine
(`main.py`: `RandomEventType`, `PopulationSimulator`).

Modelling choices:
* Python floats are modelled as exact rationals (ℚ).
* Python `**` with a rational base and a float exponent is not computable in
  general, so every function that uses it is parameterised by an arbitrary
  power operation `rpow : ℚ → ℚ → ℚ`.  For concrete scenarios (all of which
  use integer exponents) we instantiate it with `qpow`, which agrees with
  real exponentiation on non-negative integer exponents.
* The `random` module is modelled as a stream of rational draws together
  with a cursor; each call to `random.random`, `random.randint` or
  `random.normalvariate` consumes exactly one draw.  Properties that need
  `random.random () ∈ [0,1)` take that as an explicit hypothesis on the
  stream.
* Python exceptions (`ValueError`) are modelled with `Except String`.
* Dynamically typed threshold entries are modelled by the `PyVal` type
  (a number, a string, or anything else).
-/

/-- Power operation used to instantiate concrete scenarios: agrees with
Python `**` whenever the exponent is a non-negative integer. -/
def qpow (b e : ℚ) : ℚ :=
  if e.den = 1 ∧ 0 ≤ e.num then b ^ e.num.toNat else 0

/-- Model of the `random` module: an oracle stream of rational draws and a
cursor counting how many draws have been consumed. -/
structure RandSrc where
  stream : ℕ → ℚ
  idx : ℕ

/-- Consume one draw from the random oracle. -/
def RandSrc.next (r : RandSrc) : ℚ × RandSrc :=
  (r.stream r.idx, ⟨r.stream, r.idx + 1⟩)

/-- Model of `random.random()`: one uniform draw (in `[0,1)` by hypothesis
on the stream where a property needs it). -/
def random_random (r : RandSrc) : ℚ × RandSrc := r.next

/-- Model of `random.randint a b`: consumes one draw and returns an integer
which, when `a ≤ b`, lies in `[a, b]` (Python guarantees the range). -/
def randint (a b : ℤ) (r : RandSrc) : ℤ × RandSrc :=
  let v := r.next
  (a + (⌊v.1⌋ % (b - a + 1)), v.2)

/-- Model of `random.normalvariate mu sigma`: consumes one draw; the value
is the oracle draw scaled by `sigma` and shifted by `mu` (the distribution
itself is irrelevant to the claims). -/
def normalvariate (mu sigma : ℚ) (r : RandSrc) : ℚ × RandSrc :=
  let v := r.next
  (mu + sigma * v.1, v.2)

/-- Embedding of `RandomEventType` (`main.py` lines 22-59): the fields of a
validated event descriptor. -/
structure RandomEventType where
  name : String
  occurrence_probability : ℚ
  min_duration_weeks : ℤ
  max_duration_weeks : ℤ
  birth_factor_impact : ℚ
  death_factor_impact : ℚ
  k_factor_impact : ℚ
deriving DecidableEq, Repr

/-- Embedding of `RandomEventType.__init__` with its validation: raises
`ValueError` (modelled as `Except.error`) when the occurrence probability is
outside `[0,1]` or the durations are invalid; otherwise builds the
descriptor from the arguments. -/
def mk_random_event_type (name : String) (occurrence_probability : ℚ)
    (min_duration_weeks max_duration_weeks : ℤ)
    (birth_factor_impact death_factor_impact k_factor_impact : ℚ) :
    Except String RandomEventType :=
  if ¬ (0 ≤ occurrence_probability ∧ occurrence_probability ≤ 1) then
    .error "Occurrence probability must be between 0.0 and 1.0."
  else if ¬ (min_duration_weeks > 0 ∧ max_duration_weeks ≥ min_duration_weeks) then
    .error "Min/max duration weeks must be positive and max >= min."
  else
    .ok ⟨name, occurrence_probability, min_duration_weeks, max_duration_weeks,
      birth_factor_impact, death_factor_impact, k_factor_impact⟩

/-- Constructor call leaving the three impact multipliers at their Python
default value `1.0`. -/
def mk_random_event_type_default (name : String) (occurrence_probability : ℚ)
    (min_duration_weeks max_duration_weeks : ℤ) : Except String RandomEventType :=
  mk_random_event_type name occurrence_probability min_duration_weeks
    max_duration_weeks 1 1 1

/-- Entry of `random_event_history` (`main.py` lines 234-243). -/
structure EventRecord where
  name : String
  start_week : ℤ
  end_week : ℤ
  impacts_birth : ℚ
  impacts_death : ℚ
  impacts_k : ℚ
deriving DecidableEq, Repr

/-- Full mutable state of a `PopulationSimulator` instance. -/
structure SimState where
  P_current : ℚ
  base_K : ℚ
  b_base : ℚ
  d_base : ℚ
  birth_density_exponent : ℚ
  death_density_exponent : ℚ
  S_factor : ℚ
  E_birth_factor : ℚ
  E_death_factor : ℚ
  E_k_factor : ℚ
  thresholds : List (ℚ × String × String)
  week_count : ℤ
  possible_random_events : List RandomEventType
  active_random_event_details : Option (RandomEventType × ℤ)
  random_event_history : List EventRecord
deriving DecidableEq, Repr

/-- Dynamically typed value appearing in a raw threshold entry: a Python
number (`int`/`float`), a string, or a value of any other type. -/
inductive PyVal where
  | num : ℚ → PyVal
  | str : String → PyVal
  | other : PyVal
deriving DecidableEq, Repr

/-- Embedding of `PopulationSimulator.set_thresholds` (`main.py` lines
183-202): keep exactly the entries whose value is a number and whose two
labels are strings (others are skipped with a printed warning), then sort
ascending by threshold value (Python `list.sort` with key `x[0]`, a stable
sort, which `List.mergeSort` also is). -/
def set_thresholds (s : SimState) (thresholds_list : List (PyVal × PyVal × PyVal)) :
    SimState :=
  let valid := thresholds_list.filterMap (fun t =>
    match t with
    | (.num v, .str rise, .str fall) => some (v, rise, fall)
    | _ => none)
  { s with thresholds := valid.mergeSort (fun a b => a.1 ≤ b.1) }

/-- Embedding of `PopulationSimulator.set_environmental_factors` (`main.py`
lines 204-218): `none` models an omitted argument (keep the prior value). -/
def set_environmental_factors (s : SimState)
    (birth_factor death_factor k_factor : Option ℚ) : SimState :=
  let s1 := match birth_factor with
    | some v => { s with E_birth_factor := v }
    | none => s
  let s2 := match death_factor with
    | some v => { s1 with E_death_factor := v }
    | none => s1
  match k_factor with
  | some v => { s2 with E_k_factor := v }
  | none => s2

/-- Embedding of `PopulationSimulator.__init__` (`main.py` lines 86-146):
clamps a negative initial population to 0, rejects a non-positive base
carrying capacity, starts with all manual factors at 1, week 0, no active
event and empty history; an initial threshold list goes through
`set_thresholds` (passing `[]` models Python `None`, for which the
`if thresholds:` guard skips the call, leaving the same empty list). -/
def mk_simulator (initial_population base_carrying_capacity : ℚ)
    (base_birth_rate_per_capita base_death_rate_per_capita : ℚ)
    (birth_density_exponent death_density_exponent : ℚ)
    (stochasticity_factor : ℚ)
    (possible_random_events : List RandomEventType)
    (thresholds : List (PyVal × PyVal × PyVal)) : Except String SimState :=
  if ¬ base_carrying_capacity > 0 then
    .error "Base Carrying Capacity (base_carrying_capacity) must be positive."
  else
    .ok (set_thresholds
      { P_current := max 0 initial_population
        base_K := base_carrying_capacity
        b_base := base_birth_rate_per_capita
        d_base := base_death_rate_per_capita
        birth_density_exponent := birth_density_exponent
        death_density_exponent := death_density_exponent
        S_factor := stochasticity_factor
        E_birth_factor := 1
        E_death_factor := 1
        E_k_factor := 1
        thresholds := []
        week_count := 0
        possible_random_events := possible_random_events
        active_random_event_details := none
        random_event_history := [] } thresholds)

/-- Embedding of `PopulationSimulator._get_combined_factors` (`main.py`
lines 246-256): returns (birth factor, death factor, k factor). -/
def get_combined_factors (s : SimState) : ℚ × ℚ × ℚ :=
  match s.active_random_event_details with
  | some (event_obj, _) =>
      (s.E_birth_factor * event_obj.birth_factor_impact,
       s.E_death_factor * event_obj.death_factor_impact,
       s.E_k_factor * event_obj.k_factor_impact)
  | none => (s.E_birth_factor, s.E_death_factor, s.E_k_factor)

/-- Embedding of `PopulationSimulator._calculate_weekly_change` (`main.py`
lines 148-181), parameterised by the power operation `rpow` modelling
Python `**`.  Returns the weekly delta together with the advanced random
oracle. -/
def calculate_weekly_change (rpow : ℚ → ℚ → ℚ) (s : SimState) (r : RandSrc) :
    ℚ × RandSrc :=
  let calc_pop := max 0 s.P_current
  if calc_pop = 0 then (0, r) else
    let factors := get_combined_factors s
    let current_K0 := s.base_K * factors.2.2
    let current_K := if current_K0 ≤ 0 then 1 else current_K0
    let base_birth_density_term := 1 - calc_pop / current_K
    let density_birth_modifier :=
      if base_birth_density_term > 0 then
        rpow base_birth_density_term s.birth_density_exponent
      else 0
    let density_birth_modifier2 := max 0 density_birth_modifier
    let b_eff := max 0 (s.b_base * density_birth_modifier2 * factors.1)
    let death_pressure := calc_pop / current_K
    let density_death_modifier := 1 + rpow death_pressure s.death_density_exponent
    let d_eff := max 0 (s.d_base * density_death_modifier * factors.2.1)
    let num_births := calc_pop * b_eff
    let num_deaths := calc_pop * d_eff
    let delta_P_det := num_births - num_deaths
    if s.S_factor > 0 ∧ calc_pop > 0 then
      let std_dev := s.S_factor * calc_pop
      if std_dev > 0 then
        let nv := normalvariate 0 std_dev r
        (delta_P_det + nv.1, nv.2)
      else (delta_P_det, r)
    else (delta_P_det, r)

/-- First half of `PopulationSimulator._check_for_random_event` (`main.py`
lines 221-227): age the active event by one week, clearing it when the
remaining duration drops to 0 or below. -/
def age_active_event (s : SimState) : SimState :=
  match s.active_random_event_details with
  | some (event_obj, weeks_left) =>
      if weeks_left - 1 ≤ 0 then
        { s with active_random_event_details := none }
      else
        { s with active_random_event_details := some (event_obj, weeks_left - 1) }
  | none => s

/-- Selection loop of `PopulationSimulator._check_for_random_event`
(`main.py` lines 230-244): walk the registered descriptors in order, draw
one uniform number per descriptor, and trigger the first whose draw is
below its occurrence probability (first match wins), recording a history
entry. -/
def select_loop (s : SimState) (r : RandSrc) : List RandomEventType → SimState × RandSrc
  | [] => (s, r)
  | event_type :: rest =>
      let u := random_random r
      if u.1 < event_type.occurrence_probability then
        let d := randint event_type.min_duration_weeks event_type.max_duration_weeks u.2
        ({ s with
            active_random_event_details := some (event_type, d.1)
            random_event_history := s.random_event_history ++
              [⟨event_type.name, s.week_count, s.week_count + d.1,
                event_type.birth_factor_impact, event_type.death_factor_impact,
                event_type.k_factor_impact⟩] }, d.2)
      else select_loop s u.2 rest

/-- Second half of `PopulationSimulator._check_for_random_event` (`main.py`
line 229): attempt selection only when no event is active and the
registered list is non-empty (Python truthiness of the list). -/
def select_random_event (s : SimState) (r : RandSrc) : SimState × RandSrc :=
  match s.active_random_event_details, s.possible_random_events with
  | none, _ :: _ => select_loop s r s.possible_random_events
  | _, _ => (s, r)

/-- Embedding of `PopulationSimulator._check_for_random_event` (`main.py`
lines 220-244): age the active event, then possibly select a new one. -/
def check_for_random_event (s : SimState) (r : RandSrc) : SimState × RandSrc :=
  select_random_event (age_active_event s) r

/-- Threshold loop of `PopulationSimulator.advance_one_week` (`main.py`
lines 281-287): emit the rising label when the population crossed the value
upward, the falling label when it crossed downward. -/
def detect_thresholds (P_previous P_new : ℚ) :
    List (ℚ × String × String) → List String
  | [] => []
  | (value, name_rising, name_falling) :: rest =>
      if P_previous < value ∧ value ≤ P_new then
        name_rising :: detect_thresholds P_previous P_new rest
      else if P_previous ≥ value ∧ value > P_new then
        name_falling :: detect_thresholds P_previous P_new rest
      else detect_thresholds P_previous P_new rest

/-- Result of one call to `advance_one_week`: the new simulator state, the
advanced random oracle, and the returned pair (new population, triggered
threshold labels). -/
structure TickResult where
  state : SimState
  rand : RandSrc
  population : ℚ
  triggered : List String

/-- Embedding of `PopulationSimulator.advance_one_week` (`main.py` lines
258-288): increment the week counter, run the event scheduler, compute the
weekly delta, apply it with clamping at 0, and detect threshold crossings
between the previous and the new population. -/
def advance_one_week (rpow : ℚ → ℚ → ℚ) (s : SimState) (r : RandSrc) : TickResult :=
  let s1 := { s with week_count := s.week_count + 1 }
  let P_previous := s1.P_current
  let cr := check_for_random_event s1 r
  let dc := calculate_weekly_change rpow cr.1 cr.2
  let P_new := P_previous + dc.1
  let s2 := { cr.1 with P_current := max 0 P_new }
  ⟨s2, dc.2, s2.P_current, detect_thresholds P_previous s2.P_current s2.thresholds⟩

/-- Iterated ticks: run `advance_one_week` a given number of times,
threading state and random oracle. -/
def advance_weeks (rpow : ℚ → ℚ → ℚ) : ℕ → SimState × RandSrc → SimState × RandSrc
  | 0, p => p
  | n + 1, p =>
      let t := advance_one_week rpow p.1 p.2
      advance_weeks rpow n (t.state, t.rand)

/-- States reachable through the public interface: a successful
construction, followed by any sequence of ticks, environmental-factor
updates and threshold replacements. -/
inductive Reachable : SimState → Prop where
  | init (ip K b d be de S : ℚ) (evs : List RandomEventType)
      (ts : List (PyVal × PyVal × PyVal)) (s : SimState) :
      mk_simulator ip K b d be de S evs ts = .ok s → Reachable s
  | tick (rpow : ℚ → ℚ → ℚ) (s : SimState) (r : RandSrc) :
      Reachable s → Reachable (advance_one_week rpow s r).state
  | env (s : SimState) (bf df kf : Option ℚ) :
      Reachable s → Reachable (set_environmental_factors s bf df kf)
  | thresholds (s : SimState) (lst : List (PyVal × PyVal × PyVal)) :
      Reachable s → Reachable (set_thresholds s lst)

/-! ### Shared auxiliary lemmas -/

/-- Shape of the selection loop result: only the active-event field is
replaced and the history is extended; every other field is untouched. -/
theorem select_loop_shape (l : List RandomEventType) :
    ∀ (s : SimState) (r : RandSrc), ∃ a h r2,
      select_loop s r l =
        ({ s with active_random_event_details := a
                  random_event_history := s.random_event_history ++ h }, r2) := by
  induction l with
  | nil =>
      intro s r
      exact ⟨s.active_random_event_details, [], r, by simp [select_loop]⟩
  | cons e rest ih =>
      intro s r
      by_cases hc : (random_random r).1 < e.occurrence_probability
      · refine ⟨some (e, (randint e.min_duration_weeks e.max_duration_weeks
            (random_random r).2).1),
          [⟨e.name, s.week_count, s.week_count +
              (randint e.min_duration_weeks e.max_duration_weeks (random_random r).2).1,
            e.birth_factor_impact, e.death_factor_impact, e.k_factor_impact⟩],
          (randint e.min_duration_weeks e.max_duration_weeks (random_random r).2).2, ?_⟩
        simp only [select_loop, if_pos hc]
      · obtain ⟨a, h, r2, heq⟩ := ih s (random_random r).2
        exact ⟨a, h, r2, by simp only [select_loop, if_neg hc]; exact heq⟩

/-- Shape of the whole scheduler step: only the active-event field is
replaced and the history is extended. -/
theorem check_shape (s : SimState) (r : RandSrc) :
    ∃ a h r2,
      check_for_random_event s r =
        ({ s with active_random_event_details := a
                  random_event_history := s.random_event_history ++ h }, r2) := by
  obtain ⟨P, K, b, d, be, de, S, eb, ed, ek, ts, wc, evs, act, hist⟩ := s
  cases act with
  | none =>
      cases evs with
      | nil =>
          exact ⟨none, [], r, by
            simp [check_for_random_event, age_active_event, select_random_event]⟩
      | cons e es =>
          obtain ⟨a, h, r2, heq⟩ := select_loop_shape (e :: es)
            ⟨P, K, b, d, be, de, S, eb, ed, ek, ts, wc, e :: es, none, hist⟩ r
          refine ⟨a, h, r2, ?_⟩
          simpa [check_for_random_event, age_active_event, select_random_event] using heq
  | some p =>
      obtain ⟨ev, dur⟩ := p
      by_cases hd : dur - 1 ≤ 0
      · cases evs with
        | nil =>
            exact ⟨none, [], r, by
              simp [check_for_random_event, age_active_event, select_random_event, hd]⟩
        | cons e es =>
            obtain ⟨a, h, r2, heq⟩ := select_loop_shape (e :: es)
              ⟨P, K, b, d, be, de, S, eb, ed, ek, ts, wc, e :: es, none, hist⟩ r
            refine ⟨a, h, r2, ?_⟩
            simpa [check_for_random_event, age_active_event, select_random_event, hd]
              using heq
      · exact ⟨some (ev, dur - 1), [], r, by
          simp [check_for_random_event, age_active_event, select_random_event, hd]⟩

/-- Field-level consequences of `check_shape`: the scheduler step changes
neither the population nor any configuration field, and only appends to
the history. -/
theorem check_fields (s : SimState) (r : RandSrc) :
    (check_for_random_event s r).1.P_current = s.P_current ∧
    (check_for_random_event s r).1.base_K = s.base_K ∧
    (check_for_random_event s r).1.b_base = s.b_base ∧
    (check_for_random_event s r).1.d_base = s.d_base ∧
    (check_for_random_event s r).1.birth_density_exponent = s.birth_density_exponent ∧
    (check_for_random_event s r).1.death_density_exponent = s.death_density_exponent ∧
    (check_for_random_event s r).1.S_factor = s.S_factor ∧
    (check_for_random_event s r).1.E_birth_factor = s.E_birth_factor ∧
    (check_for_random_event s r).1.E_death_factor = s.E_death_factor ∧
    (check_for_random_event s r).1.E_k_factor = s.E_k_factor ∧
    (check_for_random_event s r).1.thresholds = s.thresholds ∧
    (check_for_random_event s r).1.week_count = s.week_count ∧
    (check_for_random_event s r).1.possible_random_events = s.possible_random_events ∧
    ∃ h, (check_for_random_event s r).1.random_event_history =
      s.random_event_history ++ h := by
  obtain ⟨a, h, r2, heq⟩ := check_shape s r
  rw [heq]
  exact ⟨rfl, rfl, rfl, rfl, rfl, rfl, rfl, rfl, rfl, rfl, rfl, rfl, rfl, h, rfl⟩

/-! ### Concrete states used in scenario claims and witnesses -/

/-- Random oracle whose every draw is 0. -/
def r0 : RandSrc := ⟨fun _ => 0, 0⟩

/-- State of the concrete scenario: rates 0.01, both exponents 1, no
stochasticity, capacity 100, population 100, all factors 1. -/
def sC1 : SimState :=
  { P_current := 100, base_K := 100, b_base := 1/100, d_base := 1/100
    birth_density_exponent := 1, death_density_exponent := 1, S_factor := 0
    E_birth_factor := 1, E_death_factor := 1, E_k_factor := 1
    thresholds := [], week_count := 0, possible_random_events := []
    active_random_event_details := none, random_event_history := [] }

/-- Deterministic state whose tick moves the population from 149 to 151
(delta +2), with the single threshold (150, "R", "F"). -/
def sRise : SimState :=
  { sC1 with P_current := 149, base_K := 298, b_base := 4/149, d_base := 0
             thresholds := [(150, "R", "F")] }

/-- Deterministic state whose tick moves the population from 151 to 149
(delta -2), with the single threshold (150, "R", "F"). -/
def sFall : SimState :=
  { sC1 with P_current := 151, base_K := 151, b_base := 0, d_base := 1/151
             thresholds := [(150, "R", "F")] }

/-- Deterministic state whose tick moves the population from 140 to 145
(delta +5), with the single threshold (150, "R", "F"). -/
def sFlat : SimState :=
  { sC1 with P_current := 140, base_K := 280, b_base := 1/14, d_base := 0
             thresholds := [(150, "R", "F")] }

/-- State with zero population (and an active event plus non-trivial
manual factors, to exercise the absorbing-state claim). -/
def sZero : SimState :=
  { sC1 with P_current := 0, E_birth_factor := 3, E_death_factor := 5, E_k_factor := 7
             possible_random_events := [⟨"Ev", 1, 1, 2, 2, 3, 4⟩]
             active_random_event_details := some (⟨"Ev", 1, 1, 2, 2, 3, 4⟩, 4) }

/-! ### Claim theorems -/

/-- C1: in the concrete scenario (base birth rate 0.01, base death rate
0.01, both density exponents 1, stochasticity 0, base capacity 100, all
combined factors 1, population 100 = K) the weekly delta is exactly -2
(death density modifier 2, effective death rate 0.02 while the birth
density modifier contributes 0), and one tick yields population exactly
98. -/
theorem concrete_scenario_tick :
    (calculate_weekly_change qpow sC1 r0).1 = -2
    ∧ (advance_one_week qpow sC1 r0).state.P_current = 98
    ∧ (advance_one_week qpow sC1 r0).population = 98
    ∧ 1 + qpow (sC1.P_current / sC1.base_K) sC1.death_density_exponent = 2
    ∧ max 0 (sC1.d_base *
        (1 + qpow (sC1.P_current / sC1.base_K) sC1.death_density_exponent) * 1)
      = 2/100 := by
  refine ⟨?_, ?_, ?_, ?_, ?_⟩ <;>
    norm_num [advance_one_week, check_for_random_event, age_active_event,
      select_random_event, calculate_weekly_change, get_combined_factors, sC1, qpow]

/-- C10: a tick mutates only the current population, the week counter
(incremented by exactly 1), the active-event instance and the append-only
event history; every configuration field (capacity, rates, exponents,
stochasticity factor, manual factors, thresholds, registered events) is
unchanged. -/
theorem tick_frame (rpow : ℚ → ℚ → ℚ) (s : SimState) (r : RandSrc) :
    (advance_one_week rpow s r).state.base_K = s.base_K ∧
    (advance_one_week rpow s r).state.b_base = s.b_base ∧
    (advance_one_week rpow s r).state.d_base = s.d_base ∧
    (advance_one_week rpow s r).state.birth_density_exponent = s.birth_density_exponent ∧
    (advance_one_week rpow s r).state.death_density_exponent = s.death_density_exponent ∧
    (advance_one_week rpow s r).state.S_factor = s.S_factor ∧
    (advance_one_week rpow s r).state.E_birth_factor = s.E_birth_factor ∧
    (advance_one_week rpow s r).state.E_death_factor = s.E_death_factor ∧
    (advance_one_week rpow s r).state.E_k_factor = s.E_k_factor ∧
    (advance_one_week rpow s r).state.thresholds = s.thresholds ∧
    (advance_one_week rpow s r).state.possible_random_events = s.possible_random_events ∧
    (advance_one_week rpow s r).state.week_count = s.week_count + 1 ∧
    ∃ h, (advance_one_week rpow s r).state.random_event_history =
      s.random_event_history ++ h := by
  obtain ⟨a, h, r2, heq⟩ :=
    check_shape { s with week_count := s.week_count + 1 } r
  simp only [advance_one_week, heq, true_and, and_true]
  exact ⟨h, rfl⟩

/-- Field preservation of the aging step. -/
theorem age_fields (s : SimState) :
    (age_active_event s).P_current = s.P_current ∧
    (age_active_event s).S_factor = s.S_factor ∧
    (age_active_event s).possible_random_events = s.possible_random_events ∧
    (age_active_event s).thresholds = s.thresholds := by
  obtain ⟨P, K, b, d, be, de, S, eb, ed, ek, ts, wc, evs, act, hist⟩ := s
  cases act with
  | none => exact ⟨rfl, rfl, rfl, rfl⟩
  | some p =>
      obtain ⟨ev, dur⟩ := p
      by_cases hd : dur - 1 ≤ 0 <;> simp [age_active_event, hd]

/-- With no registered event descriptors the scheduler step is just the
aging step and consumes no randomness. -/
theorem check_no_events (s : SimState) (r : RandSrc)
    (h : s.possible_random_events = []) :
    check_for_random_event s r = (age_active_event s, r) := by
  obtain ⟨P, K, b, d, be, de, S, eb, ed, ek, ts, wc, evs, act, hist⟩ := s
  cases evs with
  | cons e es => exact absurd h (by simp)
  | nil =>
      cases act with
      | none => rfl
      | some p =>
          obtain ⟨ev, dur⟩ := p
          by_cases hd : dur - 1 ≤ 0 <;>
            simp [check_for_random_event, age_active_event, select_random_event, hd]

/-- With stochasticity factor 0 the weekly-change computation consumes no
randomness and its delta does not depend on the random oracle. -/
theorem calc_no_stoch (rpow : ℚ → ℚ → ℚ) (s : SimState) (r r2 : RandSrc)
    (h : s.S_factor = 0) :
    (calculate_weekly_change rpow s r).2 = r ∧
    (calculate_weekly_change rpow s r).1 = (calculate_weekly_change rpow s r2).1 := by
  have hneg : ¬ (s.S_factor > 0) := by rw [h]; exact lt_irrefl 0
  unfold calculate_weekly_change
  by_cases hp : max 0 s.P_current = 0
  · simp [hp]
  · simp [hp, hneg]

/-- Unfolding of the threshold loop as a `filterMap`. -/
theorem detect_thresholds_eq_filterMap (P0 P1 : ℚ) (ts : List (ℚ × String × String)) :
    detect_thresholds P0 P1 ts = ts.filterMap (fun t =>
      if P0 < t.1 ∧ t.1 ≤ P1 then some t.2.1
      else if P0 ≥ t.1 ∧ t.1 > P1 then some t.2.2
      else none) := by
  induction ts with
  | nil => rfl
  | cons t rest ih =>
      obtain ⟨v, rn, fn⟩ := t
      by_cases h1 : P0 < v ∧ v ≤ P1
      · simp [detect_thresholds, h1, ih]
      · by_cases h2 : P0 ≥ v ∧ v > P1 <;>
          simp [detect_thresholds, h1, h2, ih]

/-- The label list returned by a tick is the threshold loop run on the
previous population, the new population and the (unchanged) threshold
list. -/
theorem advance_triggered (rpow : ℚ → ℚ → ℚ) (s : SimState) (r : RandSrc) :
    (advance_one_week rpow s r).triggered =
      detect_thresholds s.P_current
        (advance_one_week rpow s r).state.P_current s.thresholds := by
  obtain ⟨a, h, r2, heq⟩ :=
    check_shape { s with week_count := s.week_count + 1 } r
  simp only [advance_one_week, heq]

/-- The stored threshold list is always sorted ascending by value. -/
theorem thresholds_sorted_aux (s : SimState) (lst : List (PyVal × PyVal × PyVal)) :
    ((set_thresholds s lst).thresholds).Pairwise (fun a b => a.1 ≤ b.1) := by
  have h := @List.sorted_mergeSort (ℚ × String × String)
    (fun a b => decide (a.1 ≤ b.1))
    (by
      intro a b c hab hbc
      simp only [decide_eq_true_eq] at hab hbc ⊢
      exact le_trans hab hbc)
    (by intro a b; simpa using le_total a.1 b.1)
    (lst.filterMap (fun t =>
      match t with
      | (.num v, .str rise, .str fall) => some (v, rise, fall)
      | _ => none))
  simp only [decide_eq_true_eq] at h
  exact h

/-- C2: in every reachable state the population is non-negative:
construction clamps a negative initial population to `max 0 _`, and every
tick stores `max 0 (previous + delta)`. -/
theorem population_nonneg :
    (∀ s, Reachable s → 0 ≤ s.P_current)
    ∧ (∀ ip K b d be de S evs ts s,
        mk_simulator ip K b d be de S evs ts = Except.ok s →
        s.P_current = max 0 ip)
    ∧ (∀ (rpow : ℚ → ℚ → ℚ) (s : SimState) (r : RandSrc), ∃ delta,
        (advance_one_week rpow s r).state.P_current = max 0 (s.P_current + delta)) := by
  have hmk : ∀ (ip K b d be de S : ℚ) evs ts s,
      mk_simulator ip K b d be de S evs ts = Except.ok s → s.P_current = max 0 ip := by
    intro ip K b d be de S evs ts s h
    unfold mk_simulator at h
    split at h
    · exact Except.noConfusion h
    · simp only [Except.ok.injEq] at h
      subst h
      rfl
  have htick : ∀ (rpow : ℚ → ℚ → ℚ) (s : SimState) (r : RandSrc), ∃ delta,
      (advance_one_week rpow s r).state.P_current = max 0 (s.P_current + delta) := by
    intro rpow s r
    exact ⟨_, rfl⟩
  refine ⟨?_, hmk, htick⟩
  intro s hs
  induction hs with
  | init ip K b d be de S evs ts s2 h =>
      rw [hmk ip K b d be de S evs ts s2 h]
      exact le_max_left 0 ip
  | tick rpow s2 r hr ih =>
      obtain ⟨delta, hd⟩ := htick rpow s2 r
      rw [hd]
      exact le_max_left _ _
  | env s2 bf df kf hr ih =>
      cases bf <;> cases df <;> cases kf <;>
        simpa [set_environmental_factors] using ih
  | thresholds s2 lst hr ih => simpa [set_thresholds] using ih

/-- Simple initial state: the image of `mk_simulator 5 10 1 1 1 1 0 [] []`. -/
def sInit5 : SimState :=
  { sC1 with P_current := 5, base_K := 10, b_base := 1, d_base := 1 }

/-- Witness for C2 at a concrete reachable state. -/
theorem population_nonneg_witness : 0 ≤ sInit5.P_current :=
  population_nonneg.1 sInit5 (Reachable.init 5 10 1 1 1 1 0 [] [] sInit5 (by
    norm_num [mk_simulator, set_thresholds, sInit5, sC1, SimState.mk.injEq]))

/-- C3: the label list of a tick is exactly the labels of the thresholds selected
by the crossing conditions (rising label iff `P0 < v ≤ P1`, falling label
iff `P0 ≥ v > P1`), in the order of the stored list, which registration
keeps sorted ascending by value; concretely with the single threshold
(150, "R", "F") a tick from 149 to 151 returns exactly ["R"], from 151 to
149 exactly ["F"], and from 140 to 145 the empty list. -/
theorem threshold_crossing :
    (∀ (rpow : ℚ → ℚ → ℚ) (s : SimState) (r : RandSrc),
      (advance_one_week rpow s r).triggered = s.thresholds.filterMap (fun t =>
        if s.P_current < t.1 ∧ t.1 ≤ (advance_one_week rpow s r).state.P_current then
          some t.2.1
        else if s.P_current ≥ t.1 ∧ t.1 > (advance_one_week rpow s r).state.P_current then
          some t.2.2
        else none))
    ∧ (∀ (s : SimState) (lst : List (PyVal × PyVal × PyVal)),
        ((set_thresholds s lst).thresholds).Pairwise (fun a b => a.1 ≤ b.1))
    ∧ (advance_one_week qpow sRise r0).state.P_current = 151
    ∧ (advance_one_week qpow sRise r0).triggered = ["R"]
    ∧ (advance_one_week qpow sFall r0).state.P_current = 149
    ∧ (advance_one_week qpow sFall r0).triggered = ["F"]
    ∧ (advance_one_week qpow sFlat r0).state.P_current = 145
    ∧ (advance_one_week qpow sFlat r0).triggered = [] := by
  refine ⟨?_, thresholds_sorted_aux, ?_, ?_, ?_, ?_, ?_, ?_⟩
  · intro rpow s r
    rw [advance_triggered, detect_thresholds_eq_filterMap]
  all_goals
    norm_num [advance_one_week, check_for_random_event, age_active_event,
      select_random_event, calculate_weekly_change, get_combined_factors,
      detect_thresholds, sRise, sFall, sFlat, sC1, qpow]

/-- C4: a population of 0 yields a weekly delta of exactly 0 without
consuming randomness, and the population stays 0 over any number of
subsequent ticks, whatever the active event, registered events or manual
factors in the state. -/
theorem zero_absorbing (rpow : ℚ → ℚ → ℚ) (s : SimState) (r : RandSrc)
    (h : s.P_current = 0) :
    (calculate_weekly_change rpow s r).1 = 0
    ∧ (calculate_weekly_change rpow s r).2 = r
    ∧ ∀ n, (advance_weeks rpow n (s, r)).1.P_current = 0 := by
  have hcalc : ∀ (s2 : SimState) (r2 : RandSrc), s2.P_current = 0 →
      calculate_weekly_change rpow s2 r2 = (0, r2) := by
    intro s2 r2 h2
    unfold calculate_weekly_change
    rw [h2]
    simp
  have htick : ∀ (s2 : SimState) (r2 : RandSrc), s2.P_current = 0 →
      (advance_one_week rpow s2 r2).state.P_current = 0 := by
    intro s2 r2 h2
    have hp : (check_for_random_event { s2 with week_count := s2.week_count + 1 }
        r2).1.P_current = 0 := by
      rw [(check_fields { s2 with week_count := s2.week_count + 1 } r2).1]
      exact h2
    simp only [advance_one_week, hcalc _ _ hp]
    simp [h2]
  refine ⟨by rw [hcalc s r h], by rw [hcalc s r h], ?_⟩
  intro n
  induction n generalizing s r with
  | zero => exact h
  | succ m ih =>
      simp only [advance_weeks]
      exact ih _ _ (htick s r h)

/-- Witness for C4: three ticks from the zero-population state (with an
active event and non-trivial factors) leave the population at 0. -/
theorem zero_absorbing_witness :
    (advance_weeks qpow 3 (sZero, r0)).1.P_current = 0 :=
  (zero_absorbing qpow sZero r0 rfl).2.2 3

/-- C5: on a tick starting with an active event of remaining duration d,
the scheduler keeps the same event with duration d - 1 when d >= 2 (and
consumes no randomness, attempting no selection), and when d = 1 the aging
step clears the instance so that the whole scheduler step is exactly the
selection step run on the cleared state.  (At most one instance ever
exists: the state holds a single optional instance.) -/
theorem scheduler_step (s : SimState) (r : RandSrc) (ev : RandomEventType)
    (d : ℤ) (hact : s.active_random_event_details = some (ev, d)) :
    (2 ≤ d →
      check_for_random_event s r =
        ({ s with active_random_event_details := some (ev, d - 1) }, r))
    ∧ (d = 1 →
        age_active_event s = { s with active_random_event_details := none }
        ∧ check_for_random_event s r =
            select_random_event { s with active_random_event_details := none } r) := by
  constructor
  · intro hd
    have hgt : ¬ (d - 1 ≤ 0) := by omega
    have hage : age_active_event s =
        { s with active_random_event_details := some (ev, d - 1) } := by
      unfold age_active_event
      rw [hact]
      simp [hgt]
    unfold check_for_random_event
    rw [hage]
    unfold select_random_event
    rfl
  · intro hd
    subst hd
    have hage : age_active_event s =
        { s with active_random_event_details := none } := by
      unfold age_active_event
      rw [hact]
      norm_num
    exact ⟨hage, by unfold check_for_random_event; rw [hage]⟩

/-- Example event descriptor. -/
def evEx : RandomEventType := ⟨"Ev", 1/2, 1, 3, 2, 3, 4⟩

/-- State with `evEx` active for 5 more weeks. -/
def sAct : SimState :=
  { sC1 with possible_random_events := [evEx]
             active_random_event_details := some (evEx, 5) }

/-- Witness for C5: aging an active event with 5 weeks left keeps it with
4 weeks left and changes nothing else. -/
theorem scheduler_step_witness :
    check_for_random_event sAct r0 =
      ({ sAct with active_random_event_details := some (evEx, 4) }, r0) := by
  simpa using (scheduler_step sAct r0 evEx 5 rfl).1 (by norm_num)

/-- C6: the descriptor constructor fails exactly when the probability is
outside [0,1], the minimum duration is non-positive, or the maximum is
below the minimum; on success every field holds the given argument, the
impact multipliers defaulting to 1. -/
theorem event_type_validation (name : String) (p : ℚ) (mn mx : ℤ) (bf df kf : ℚ) :
    ((mk_random_event_type name p mn mx bf df kf).isOk = false ↔
      (p < 0 ∨ 1 < p ∨ mn ≤ 0 ∨ mx < mn))
    ∧ (∀ ev, mk_random_event_type name p mn mx bf df kf = Except.ok ev →
        ev.name = name ∧ ev.occurrence_probability = p ∧
        ev.min_duration_weeks = mn ∧ ev.max_duration_weeks = mx ∧
        ev.birth_factor_impact = bf ∧ ev.death_factor_impact = df ∧
        ev.k_factor_impact = kf)
    ∧ mk_random_event_type_default name p mn mx =
        mk_random_event_type name p mn mx 1 1 1 := by
  refine ⟨?_, ?_, rfl⟩
  · unfold mk_random_event_type
    by_cases h1 : 0 ≤ p ∧ p ≤ 1
    · by_cases h2 : mn > 0 ∧ mx ≥ mn
      · rw [if_neg (not_not_intro h1), if_neg (not_not_intro h2)]
        simp only [Except.isOk, Except.toBool]
        constructor
        · intro hf
          exact Bool.noConfusion hf
        · rintro (hr | hr | hr | hr)
          · exact absurd h1.1 (not_le.2 hr)
          · exact absurd h1.2 (not_le.2 hr)
          · exact absurd h2.1 (not_lt.2 hr)
          · exact absurd h2.2 (not_le.2 hr)
      · rw [if_neg (not_not_intro h1), if_pos h2]
        simp only [Except.isOk, Except.toBool, eq_self_iff_true, true_iff]
        push_neg at h2
        rcases le_or_lt mn 0 with hmn | hmn
        · exact Or.inr (Or.inr (Or.inl hmn))
        · exact Or.inr (Or.inr (Or.inr (h2 hmn)))
    · rw [if_pos h1]
      simp only [Except.isOk, Except.toBool, eq_self_iff_true, true_iff]
      push_neg at h1
      rcases lt_or_le p 0 with hp | hp
      · exact Or.inl hp
      · exact Or.inr (Or.inl (h1 hp))
  · intro ev hok
    unfold mk_random_event_type at hok
    split at hok
    · exact Except.noConfusion hok
    · split at hok
      · exact Except.noConfusion hok
      · simp only [Except.ok.injEq] at hok
        subst hok
        exact ⟨rfl, rfl, rfl, rfl, rfl, rfl, rfl⟩

/-- Witness for C6: a successful construction holds its arguments. -/
theorem event_type_validation_witness :
    (⟨"E", 1/2, 1, 2, 2, 3, 4⟩ : RandomEventType).occurrence_probability = 1/2 :=
  ((event_type_validation "E" (1/2) 1 2 2 3 4).2.1
    ⟨"E", 1/2, 1, 2, 2, 3, 4⟩ (by norm_num [mk_random_event_type])).2.1

/-- C7: threshold registration is total, keeps exactly the well-typed
entries (a numeric value and two string labels; others are skipped), and
stores them sorted ascending by value; construction registers its
threshold argument through the same function. -/
theorem set_thresholds_props (s : SimState) (lst : List (PyVal × PyVal × PyVal)) :
    ((set_thresholds s lst).thresholds).Perm (lst.filterMap (fun t =>
      match t with
      | (.num v, .str rise, .str fall) => some (v, rise, fall)
      | _ => none))
    ∧ ((set_thresholds s lst).thresholds).Pairwise (fun a b => a.1 ≤ b.1)
    ∧ (∀ ip K b d be de S evs s2,
        mk_simulator ip K b d be de S evs lst = Except.ok s2 →
        s2.thresholds = (set_thresholds s lst).thresholds) := by
  refine ⟨?_, thresholds_sorted_aux s lst, ?_⟩
  · simp only [set_thresholds]
    exact List.mergeSort_perm _ _
  · intro ip K b d be de S evs s2 h
    unfold mk_simulator at h
    split at h
    · exact Except.noConfusion h
    · simp only [Except.ok.injEq] at h
      subst h
      rfl

/-- Raw threshold list with two well-typed entries and two malformed
ones. -/
def lstEx : List (PyVal × PyVal × PyVal) :=
  [(.num 50, .str "L", .str "M"), (.other, .str "x", .str "y"),
   (.num 100, .num 3, .str "z"), (.num 150, .str "R", .str "F")]

/-- Image of `mk_simulator 0 10 0 0 0 0 0 [] lstEx`. -/
def s2Ex : SimState :=
  { P_current := 0, base_K := 10, b_base := 0, d_base := 0
    birth_density_exponent := 0, death_density_exponent := 0, S_factor := 0
    E_birth_factor := 1, E_death_factor := 1, E_k_factor := 1
    thresholds := [(50, "L", "M"), (150, "R", "F")], week_count := 0
    possible_random_events := [], active_random_event_details := none
    random_event_history := [] }

/-- Witness for C7: constructing with the partly malformed list stores
exactly the two valid entries, sorted. -/
theorem set_thresholds_props_witness :
    s2Ex.thresholds = (set_thresholds sC1 lstEx).thresholds :=
  (set_thresholds_props sC1 lstEx).2.2 0 10 0 0 0 0 0 [] s2Ex (by
    have hs : List.mergeSort [((50 : ℚ), "L", "M"), ((150 : ℚ), "R", "F")]
        (fun a b => a.1 ≤ b.1) = [((50 : ℚ), "L", "M"), ((150 : ℚ), "R", "F")] :=
      List.mergeSort_of_sorted (by decide)
    norm_num [mk_simulator, set_thresholds, lstEx, s2Ex, SimState.mk.injEq,
      List.filterMap_cons, List.filterMap_nil, hs])

/-- C8: with stochasticity factor 0 and no registered events a tick is a
deterministic function of the state: it consumes no randomness (the oracle
is returned unchanged) and its delta, new state, returned population and
labels do not depend on the random oracle. -/
theorem deterministic_tick (rpow : ℚ → ℚ → ℚ) (s : SimState) (r r2 : RandSrc)
    (hS : s.S_factor = 0) (hE : s.possible_random_events = []) :
    (advance_one_week rpow s r).rand = r
    ∧ (calculate_weekly_change rpow s r).2 = r
    ∧ (calculate_weekly_change rpow s r).1 = (calculate_weekly_change rpow s r2).1
    ∧ (advance_one_week rpow s r).state = (advance_one_week rpow s r2).state
    ∧ (advance_one_week rpow s r).population = (advance_one_week rpow s r2).population
    ∧ (advance_one_week rpow s r).triggered = (advance_one_week rpow s r2).triggered := by
  have hck : ∀ rr : RandSrc,
      check_for_random_event { s with week_count := s.week_count + 1 } rr
        = (age_active_event { s with week_count := s.week_count + 1 }, rr) :=
    fun rr => check_no_events _ rr hE
  have hAS : (age_active_event { s with week_count := s.week_count + 1 }).S_factor
      = 0 := by
    rw [(age_fields _).2.1]
    exact hS
  have hA := calc_no_stoch rpow
    (age_active_event { s with week_count := s.week_count + 1 }) r r2 hAS
  refine ⟨?_, (calc_no_stoch rpow s r r2 hS).1, (calc_no_stoch rpow s r r2 hS).2,
    ?_, ?_, ?_⟩
  · simp only [advance_one_week, hck r]
    exact hA.1
  · simp only [advance_one_week, hck r, hck r2, hA.2]
  · simp only [advance_one_week, hck r, hck r2, hA.2]
  · simp only [advance_one_week, hck r, hck r2, hA.2]

/-- Witness for C8: a tick of the deterministic scenario state returns the
oracle unchanged. -/
theorem deterministic_tick_witness :
    (advance_one_week qpow sC1 r0).rand = r0 :=
  (deterministic_tick qpow sC1 r0 r0 rfl rfl).1

/-- C9: with a single registered descriptor of occurrence probability 1
and every uniform draw below 1 (it lies in [0,1)), any tick whose aging
step leaves the scheduler idle triggers that descriptor. -/
theorem prob_one_triggers (s : SimState) (r : RandSrc) (ev : RandomEventType)
    (hlist : s.possible_random_events = [ev])
    (hprob : ev.occurrence_probability = 1)
    (hr : ∀ n, r.stream n < 1)
    (hidle : (age_active_event s).active_random_event_details = none) :
    ∃ d, (check_for_random_event s r).1.active_random_event_details
      = some (ev, d) := by
  have hc : (random_random r).1 < ev.occurrence_probability := by
    rw [hprob]
    exact hr r.idx
  obtain ⟨P, K, b, d0, be, de, S, eb, ed, ek, ts, wc, evs, act, hist⟩ := s
  cases evs with
  | nil => exact absurd hlist (by simp)
  | cons e es =>
      obtain ⟨rfl, rfl⟩ : e = ev ∧ es = [] := by simpa using hlist
      cases act with
      | none =>
          refine ⟨(randint e.min_duration_weeks e.max_duration_weeks
            (random_random r).2).1, ?_⟩
          simp [check_for_random_event, age_active_event, select_random_event,
            select_loop, hc]
      | some p =>
          obtain ⟨ev0, dur⟩ := p
          by_cases hd : dur - 1 ≤ 0
          · refine ⟨(randint e.min_duration_weeks e.max_duration_weeks
              (random_random r).2).1, ?_⟩
            simp [check_for_random_event, age_active_event, select_random_event,
              select_loop, hc, hd]
          · exfalso
            simp [age_active_event, hd] at hidle

/-- Event descriptor with occurrence probability 1. -/
def evP1 : RandomEventType := ⟨"Sure", 1, 2, 5, 1, 1, 1⟩

/-- Idle state registering only `evP1`. -/
def sIdle : SimState := { sC1 with possible_random_events := [evP1] }

/-- Witness for C9: the probability-1 event triggers on the first tick. -/
theorem prob_one_triggers_witness :
    ∃ d, (check_for_random_event sIdle r0).1.active_random_event_details
      = some (evP1, d) :=
  prob_one_triggers sIdle r0 evP1 rfl rfl (fun n => by norm_num [r0]) rfl
